import Mathlib

/-!
Verification of the JNI handle bridge in
`android/app/src/main/cpp/whisper_jni.cpp` (repository `t2o2/local-whisper`).

The bridge exposes three entry points — `whisperInit`, `whisperTranscribe`,
`whisperFree` — that wrap the external whisper.cpp inference engine.  The
engine itself is not part of this repository; following the specification it
is treated as a black box, modelled here by the `Engine` structure whose
fields stand for the engine entry points the bridge calls
(`whisper_context_default_params`, `whisper_init_from_file_with_params`,
`whisper_full_default_params`, `whisper_full`, `whisper_full_n_segments`,
`whisper_full_get_segment_text`, `whisper_free`).

Each bridge operation is embedded as a pure Lean function that, besides its
return value, emits the ordered trace of boundary events (JNI borrow
acquisitions/releases and engine entry-point invocations) performed during
the call, and reports the caller-visible contents of the borrowed inputs at
return time.  This makes the error-handling, resource-release and frame
claims of the specification directly statable.
-/

namespace WhisperJNI

/-- One single-precision audio sample, represented by its 32-bit pattern.
The bridge only marshals samples (it never computes on them), so the bit
pattern is a faithful representation. -/
structure F32 where
  bits : Nat
deriving DecidableEq, Repr

/-- The engine's sampling strategy selector (`enum whisper_sampling_strategy`):
`WHISPER_SAMPLING_GREEDY` or `WHISPER_SAMPLING_BEAM_SEARCH`. -/
inductive Strategy where
  | greedy
  | beamSearch
deriving DecidableEq, Repr

/-- Projection of `struct whisper_context_params` onto the field the bridge
writes (`use_gpu`) plus a representative untouched field (`gpu_device`)
standing for the engine-chosen defaults that pass through unchanged. -/
structure CtxParams where
  use_gpu : Bool
  gpu_device : Int
deriving DecidableEq, Repr

/-- Projection of `struct whisper_full_params` onto the fields the bridge
populates.  `strategy` is installed by `whisper_full_default_params`; the
other nine fields are the ones `whisperTranscribe` assigns explicitly.
Fields of the real struct that the bridge never touches are carried inside
the engine's defaults and pass through unchanged, so they are not modelled. -/
structure FullParams where
  strategy : Strategy
  print_progress : Bool
  print_special : Bool
  print_realtime : Bool
  print_timestamps : Bool
  translate : Bool
  single_segment : Bool
  no_timestamps : Bool
  language : String
  n_threads : Nat
deriving DecidableEq, Repr

/-- The observable outcome of one `whisper_full` call on a context: the
returned status code, together with the segment store the call leaves in the
context, read back by `whisper_full_n_segments` (the count) and
`whisper_full_get_segment_text` (text by segment index). -/
structure FullResult where
  status : Int
  n_segments : Nat
  segment_text : Nat → String

/-- Model of the external whisper engine (spec §6: an external collaborator
consumed as a black box).  Per the specification's stated assumption the
entry points are deterministic, so they are modelled as functions. -/
structure Engine where
  /-- `whisper_context_default_params()`. -/
  context_default_params : CtxParams
  /-- `whisper_init_from_file_with_params(path, cparams)`: `some` address on
  success (a non-null pointer, hence a nonzero handle value once cast to
  `jlong`), `none` for a null pointer on failure. -/
  init_from_file : String → CtxParams → Option { a : Int // a ≠ 0 }
  /-- `whisper_full_default_params(strategy)`: the engine's default
  configuration for the requested sampling strategy. -/
  full_default_params : Strategy → FullParams
  /-- Engine contract: the default configuration returned for a strategy
  carries that strategy. -/
  full_default_params_strategy :
    ∀ s, (full_default_params s).strategy = s
  /-- `whisper_full(ctx, params, samples, n)` together with the post-call
  segment accessors, as a function of the context handle, the configuration
  and the sample buffer. -/
  full : Int → FullParams → List F32 → FullResult

/-- One boundary event performed by a bridge operation, in program order:
JNI borrow bookkeeping calls and engine entry-point invocations. -/
inductive Event where
  /-- `env->GetArrayLength(samples)` returning `n`. -/
  | getArrayLength (n : Nat)
  /-- `env->GetFloatArrayElements(samples, nullptr)`: borrow of the sample
  buffer acquired. -/
  | getFloatArrayElements
  /-- `env->GetStringUTFChars(str, nullptr)`: borrow of a string acquired. -/
  | getStringUTFChars (s : String)
  /-- `env->ReleaseFloatArrayElements(samples, audio_data, mode)`: borrow of
  the sample buffer released (mode 0 copies the native buffer back). -/
  | releaseFloatArrayElements (mode : Int)
  /-- `env->ReleaseStringUTFChars(str, chars)`: borrow of a string released. -/
  | releaseStringUTFChars (s : String)
  /-- `env->NewStringUTF(text)`: the owned result string handed back. -/
  | newStringUTF (s : String)
  /-- engine call `whisper_context_default_params()`. -/
  | engineContextDefaultParams
  /-- engine call `whisper_init_from_file_with_params(path, cparams)`. -/
  | engineInitFromFile (path : String) (cparams : CtxParams)
  /-- engine call `whisper_full_default_params(strategy)`. -/
  | engineFullDefaultParams (s : Strategy)
  /-- engine call `whisper_full(ctx, params, samples, n)`. -/
  | engineFull (ctx : Int) (params : FullParams) (samples : List F32)
  /-- engine call `whisper_full_get_segment_text(ctx, i)`. -/
  | engineGetSegmentText (i : Nat)
  /-- engine call `whisper_free(ctx)`. -/
  | engineFree (ctx : Int)
deriving DecidableEq, Repr

/-- Whether an event is an invocation of an engine entry point (as opposed
to JNI boundary bookkeeping). -/
def Event.isEngineCall : Event → Bool
  | .engineContextDefaultParams => true
  | .engineInitFromFile _ _ => true
  | .engineFullDefaultParams _ => true
  | .engineFull _ _ _ => true
  | .engineGetSegmentText _ => true
  | .engineFree _ => true
  | _ => false

/-- Whether an event is the `whisper_full` invocation. -/
def Event.isEngineFull : Event → Bool
  | .engineFull _ _ _ => true
  | _ => false

/-- Outcome of `whisperInit`: the returned `jlong` handle and the trace of
boundary events. -/
structure InitOut where
  handle : Int
  trace : List Event

/-- Embedding of
`Java_com_localwhisper_android_transcription_WhisperManager_whisperInit`:
borrows the path characters, builds context parameters from the engine's
defaults with `use_gpu = true`, asks the engine to construct a context from
the file, releases the borrow, and returns the context address as the
handle — or the zero handle when the engine returned a null context. -/
def whisperInit (e : Engine) (model_path : String) : InitOut :=
  let path := model_path
  let cparams : CtxParams := { e.context_default_params with use_gpu := true }
  let ctx := e.init_from_file path cparams
  let trace := [Event.getStringUTFChars model_path,
                Event.engineContextDefaultParams,
                Event.engineInitFromFile path cparams,
                Event.releaseStringUTFChars model_path]
  match ctx with
  | none => { handle := 0, trace := trace }
  | some a => { handle := a.val, trace := trace }

/-- The configuration `whisperTranscribe` passes to `whisper_full`: the
engine's greedy-strategy defaults with the nine explicit assignments of the
source applied (progress/special/realtime/timestamp printing off, no
translation, multi-segment output, timestamps suppressed, the borrowed
language characters installed, four worker threads). -/
def bridgeParams (e : Engine) (lang : String) : FullParams :=
  { e.full_default_params Strategy.greedy with
      print_progress := false
      print_special := false
      print_realtime := false
      print_timestamps := false
      translate := false
      single_segment := false
      no_timestamps := true
      language := lang
      n_threads := 4 }

/-- Outcome of `whisperTranscribe`: the returned transcript, the trace of
boundary events, and the caller-visible contents of the two borrowed inputs
at the moment control returns (the sample array after the mode-0 copy-back
release, and the language string). -/
structure TranscribeOut where
  result : String
  trace : List Event
  samples_after : List F32
  language_after : String

/-- The events a nonzero-handle `whisperTranscribe` call performs before it
reaches its return statements, in program order: length query, the two
borrow acquisitions, configuration construction, the `whisper_full` run, and
the two unconditional borrow releases (the sample buffer with copy-back mode
0 first, then the language characters). -/
def borrowTrace (e : Engine) (context_ptr : Int) (samples : List F32)
    (language : String) : List Event :=
  [Event.getArrayLength samples.length,
   Event.getFloatArrayElements,
   Event.getStringUTFChars language,
   Event.engineFullDefaultParams Strategy.greedy,
   Event.engineFull context_ptr (bridgeParams e language) samples,
   Event.releaseFloatArrayElements 0,
   Event.releaseStringUTFChars language]

/-- Embedding of
`Java_com_localwhisper_android_transcription_WhisperManager_whisperTranscribe`.
A zero handle short-circuits to an empty string before any borrow or engine
call.  Otherwise the sample buffer and language characters are borrowed, the
fixed-policy configuration is built, `whisper_full` runs, both borrows are
released, and then either an empty string is returned on a nonzero status,
or the segment texts are concatenated in index order by repeated append
exactly as the source loop does.  `samples_after` is the caller array's
contents at return: the native buffer (never written through, `whisper_full`
takes a const pointer) copied back by the mode-0 release. -/
def whisperTranscribe (e : Engine) (context_ptr : Int) (samples : List F32)
    (language : String) : TranscribeOut :=
  if context_ptr = 0 then
    { result := ""
      trace := [Event.newStringUTF ""]
      samples_after := samples
      language_after := language }
  else
    let audio_data := samples
    let r := e.full context_ptr (bridgeParams e language) audio_data
    if r.status ≠ 0 then
      { result := ""
        trace := borrowTrace e context_ptr samples language
          ++ [Event.newStringUTF ""]
        samples_after := audio_data
        language_after := language }
    else
      let text := (List.range r.n_segments).foldl
        (fun t i => t ++ r.segment_text i) ""
      { result := text
        trace := borrowTrace e context_ptr samples language
          ++ (List.range r.n_segments).map Event.engineGetSegmentText
          ++ [Event.newStringUTF text]
        samples_after := audio_data
        language_after := language }

/-- Embedding of
`Java_com_localwhisper_android_transcription_WhisperManager_whisperFree`:
the trace of boundary events (the function returns nothing). -/
def whisperFree (context_ptr : Int) : List Event :=
  if context_ptr ≠ 0 then [Event.engineFree context_ptr] else []

/-- Whether an event is a `whisper_full_get_segment_text` read. -/
def Event.isGetSegmentText : Event → Bool
  | .engineGetSegmentText _ => true
  | _ => false

/-- Whether an event acquires the sample-buffer borrow. -/
def Event.isGetFloatArray : Event → Bool
  | .getFloatArrayElements => true
  | _ => false

/-- Whether an event releases the sample-buffer borrow. -/
def Event.isReleaseFloatArray : Event → Bool
  | .releaseFloatArrayElements _ => true
  | _ => false

/-- Whether an event acquires a string borrow. -/
def Event.isGetStringChars : Event → Bool
  | .getStringUTFChars _ => true
  | _ => false

/-- Whether an event releases a string borrow. -/
def Event.isReleaseStringChars : Event → Bool
  | .releaseStringUTFChars _ => true
  | _ => false

/-- Fixed default configuration used by the concrete test engines below. -/
def testDefaults : FullParams :=
  { strategy := Strategy.greedy
    print_progress := true
    print_special := true
    print_realtime := true
    print_timestamps := true
    translate := true
    single_segment := true
    no_timestamps := false
    language := "auto"
    n_threads := 1 }

/-- A concrete engine whose `whisper_full` always produces `res` and whose
context construction always succeeds at address 1. -/
def constEngine (res : FullResult) : Engine :=
  { context_default_params := { use_gpu := false, gpu_device := 0 }
    init_from_file := fun _ _ => some ⟨1, by decide⟩
    full_default_params := fun s => { testDefaults with strategy := s }
    full_default_params_strategy := fun _ => rfl
    full := fun _ _ _ => res }

/-- A concrete engine whose context construction always fails. -/
def failingInitEngine : Engine :=
  { constEngine { status := 0, n_segments := 0, segment_text := fun _ => "" } with
    init_from_file := fun _ _ => none }

/-- A successful run producing the two segments "Hello" and " world". -/
def twoSegs : FullResult :=
  { status := 0
    n_segments := 2
    segment_text := fun i => if i = 0 then "Hello" else " world" }

/-- A failed run (status 7) that nevertheless holds stale segments, so that
reading any of them would be observable. -/
def failedRun : FullResult :=
  { status := 7
    n_segments := 3
    segment_text := fun _ => "stale" }

/-- A successful run that produced no segments. -/
def emptyRun : FullResult :=
  { status := 0
    n_segments := 0
    segment_text := fun _ => "stale" }

/-! ### Helper lemmas -/

/-- String append distributes over `String.join` of concatenated lists. -/
theorem string_join_append (l1 l2 : List String) :
    String.join (l1 ++ l2) = String.join l1 ++ String.join l2 := by
  simp [String.join_eq, String.ext_iff]

/-- `String.join` of a one-element list. -/
theorem string_join_singleton (x : String) : String.join [x] = x := by
  simp [String.join_eq, String.ext_iff]

/-- The accumulation loop of the source (`text += segment_text(i)` for
`i = 0..n-1`) yields the starting accumulator followed by the separator-free
concatenation of the segment texts in index order. -/
theorem foldl_append_eq_join (f : Nat → String) :
    ∀ (n : Nat) (acc : String),
      (List.range n).foldl (fun t i => t ++ f i) acc
        = acc ++ String.join ((List.range n).map f)
  | 0, acc => by
      show acc = acc ++ String.join []
      rw [show String.join [] = "" from rfl, String.append_empty]
  | n + 1, acc => by
      rw [List.range_succ]
      simp only [List.foldl_append, List.map_append, List.foldl_cons,
        List.foldl_nil, List.map_cons, List.map_nil]
      rw [foldl_append_eq_join f n acc, string_join_append,
        string_join_singleton, String.append_assoc]

/-- Shape of a zero-handle `whisperTranscribe` call. -/
theorem whisperTranscribe_zero (e : Engine) (s : List F32) (l : String) :
    whisperTranscribe e 0 s l =
      { result := ""
        trace := [Event.newStringUTF ""]
        samples_after := s
        language_after := l } := rfl

/-- Shape of a nonzero-handle `whisperTranscribe` call whose engine run
fails. -/
theorem whisperTranscribe_fail (e : Engine) (h : Int) (s : List F32)
    (l : String) (hh : ¬ h = 0)
    (hf : ¬ (e.full h (bridgeParams e l) s).status = 0) :
    whisperTranscribe e h s l =
      { result := ""
        trace := borrowTrace e h s l ++ [Event.newStringUTF ""]
        samples_after := s
        language_after := l } := by
  simp only [whisperTranscribe]
  rw [if_neg hh, if_pos hf]

/-- Shape of a nonzero-handle `whisperTranscribe` call whose engine run
succeeds. -/
theorem whisperTranscribe_ok (e : Engine) (h : Int) (s : List F32)
    (l : String) (hh : ¬ h = 0)
    (hok : (e.full h (bridgeParams e l) s).status = 0) :
    whisperTranscribe e h s l =
      { result := String.join
          ((List.range (e.full h (bridgeParams e l) s).n_segments).map
            (e.full h (bridgeParams e l) s).segment_text)
        trace := borrowTrace e h s l
          ++ (List.range (e.full h (bridgeParams e l) s).n_segments).map
              Event.engineGetSegmentText
          ++ [Event.newStringUTF (String.join
              ((List.range (e.full h (bridgeParams e l) s).n_segments).map
                (e.full h (bridgeParams e l) s).segment_text))]
        samples_after := s
        language_after := l } := by
  simp only [whisperTranscribe]
  rw [if_neg hh, if_neg (by simp [hok])]
  rw [foldl_append_eq_join, String.empty_append]

/-! ### Claims -/

/-- C1: for every nonzero handle and every successful inference run whose
engine produces segments `S1..Sn` (indices `0..n-1`, `n ≥ 0`),
`whisperTranscribe` returns exactly the concatenation of the segment texts
in emission order, with no separator inserted between segments. -/
theorem c1_success_returns_concatenation (e : Engine) (h : Int) (s : List F32)
    (l : String) (hh : h ≠ 0)
    (hok : (e.full h (bridgeParams e l) s).status = 0) :
    (whisperTranscribe e h s l).result
      = String.join
          ((List.range (e.full h (bridgeParams e l) s).n_segments).map
            (e.full h (bridgeParams e l) s).segment_text) := by
  rw [whisperTranscribe_ok e h s l hh hok]

/-- Witness for C1 at a concrete engine producing the segments "Hello" and
" world" on handle 7. -/
theorem c1_success_returns_concatenation_witness :
    (7 : Int) ≠ 0
    ∧ ((constEngine twoSegs).full 7
        (bridgeParams (constEngine twoSegs) "en") []).status = 0
    ∧ (whisperTranscribe (constEngine twoSegs) 7 [] "en").result
        = String.join
            ((List.range ((constEngine twoSegs).full 7
                (bridgeParams (constEngine twoSegs) "en") []).n_segments).map
              ((constEngine twoSegs).full 7
                (bridgeParams (constEngine twoSegs) "en") []).segment_text) :=
  ⟨by decide, rfl,
    c1_success_returns_concatenation (constEngine twoSegs) 7 [] "en"
      (by decide) rfl⟩

/-- C2: for every samples sequence and language tag, `whisperTranscribe`
with the zero handle returns an empty text value and its trace contains no
engine entry-point invocation. -/
theorem c2_zero_handle_short_circuit (e : Engine) (s : List F32)
    (l : String) :
    (whisperTranscribe e 0 s l).result = ""
    ∧ (whisperTranscribe e 0 s l).trace.all
        (fun ev => !ev.isEngineCall) = true := by
  rw [whisperTranscribe_zero]
  exact ⟨rfl, rfl⟩

/-- C3: for every nonzero handle, when `whisper_full` returns a nonzero
status, `whisperTranscribe` returns an empty text value and reads no
segment text (no `whisper_full_get_segment_text` event occurs), regardless
of which nonzero status the engine reported. -/
theorem c3_failure_empty_no_partial (e : Engine) (h : Int) (s : List F32)
    (l : String) (hh : h ≠ 0)
    (hf : (e.full h (bridgeParams e l) s).status ≠ 0) :
    (whisperTranscribe e h s l).result = ""
    ∧ (whisperTranscribe e h s l).trace.countP Event.isGetSegmentText
        = 0 := by
  rw [whisperTranscribe_fail e h s l hh hf]
  refine ⟨rfl, ?_⟩
  simp [borrowTrace, Event.isGetSegmentText]

/-- Witness for C3 at a concrete engine failing with status 7 while holding
three stale segments. -/
theorem c3_failure_empty_no_partial_witness :
    (5 : Int) ≠ 0
    ∧ ((constEngine failedRun).full 5
        (bridgeParams (constEngine failedRun) "en") []).status ≠ 0
    ∧ (whisperTranscribe (constEngine failedRun) 5 [] "en").result = ""
    ∧ (whisperTranscribe (constEngine failedRun) 5 [] "en").trace.countP
        Event.isGetSegmentText = 0 :=
  ⟨by decide, by decide,
    c3_failure_empty_no_partial (constEngine failedRun) 5 [] "en"
      (by decide) (by decide)⟩

/-- C4: `whisperInit` returns the zero handle exactly when the engine fails
to construct a context from the model path (a non-null context yields a
nonzero handle), and on either path the borrowed path characters are
released exactly once, leaving no bridge-side state allocated. -/
theorem c4_init_zero_iff_engine_failure (e : Engine) (p : String) :
    ((whisperInit e p).handle = 0
      ↔ e.init_from_file p
          { e.context_default_params with use_gpu := true } = none)
    ∧ (whisperInit e p).trace.countP Event.isReleaseStringChars = 1 := by
  constructor
  · simp only [whisperInit]
    cases hc : e.init_from_file p
        { e.context_default_params with use_gpu := true } with
    | none => simp
    | some a => simp [a.property]
  · simp only [whisperInit]
    cases e.init_from_file p
        { e.context_default_params with use_gpu := true } <;>
      simp [Event.isReleaseStringChars]

/-- C5: for every nonzero handle, `whisperTranscribe` invokes `whisper_full`
exactly once, on the caller's handle and samples with the configuration
`bridgeParams`, and that configuration is fully pinned to the fixed policy:
greedy decoding, all progress/diagnostic printing off, no translation,
multi-segment output (`single_segment` off), timestamps suppressed, the
caller's language installed, and four worker threads. -/
theorem c5_fixed_policy_engine_call (e : Engine) (h : Int) (s : List F32)
    (l : String) (hh : h ≠ 0) :
    (whisperTranscribe e h s l).trace.countP Event.isEngineFull = 1
    ∧ Event.engineFull h (bridgeParams e l) s
        ∈ (whisperTranscribe e h s l).trace
    ∧ bridgeParams e l =
        { strategy := Strategy.greedy
          print_progress := false
          print_special := false
          print_realtime := false
          print_timestamps := false
          translate := false
          single_segment := false
          no_timestamps := true
          language := l
          n_threads := 4 } := by
  refine ⟨?_, ?_, ?_⟩
  · by_cases hf : (e.full h (bridgeParams e l) s).status = 0
    · rw [whisperTranscribe_ok e h s l hh hf]
      simp [borrowTrace, Event.isEngineFull, List.countP_append,
        List.countP_map, Function.comp]
    · rw [whisperTranscribe_fail e h s l hh hf]
      simp [borrowTrace, Event.isEngineFull, List.countP_append]
  · by_cases hf : (e.full h (bridgeParams e l) s).status = 0
    · rw [whisperTranscribe_ok e h s l hh hf]
      simp [borrowTrace]
    · rw [whisperTranscribe_fail e h s l hh hf]
      simp [borrowTrace]
  · rcases hq : e.full_default_params Strategy.greedy with
      ⟨st, pp, ps, pr, pt, tr, ss, nt, lg, nth⟩
    have hstr := e.full_default_params_strategy Strategy.greedy
    rw [hq] at hstr
    unfold bridgeParams
    rw [hq, show st = Strategy.greedy from hstr]

/-- Witness for C5 at a concrete engine and handle 7. -/
theorem c5_fixed_policy_engine_call_witness :
    (7 : Int) ≠ 0
    ∧ ((whisperTranscribe (constEngine twoSegs) 7 [] "en").trace.countP
          Event.isEngineFull = 1
      ∧ Event.engineFull 7 (bridgeParams (constEngine twoSegs) "en") []
          ∈ (whisperTranscribe (constEngine twoSegs) 7 [] "en").trace
      ∧ bridgeParams (constEngine twoSegs) "en" =
          { strategy := Strategy.greedy
            print_progress := false
            print_special := false
            print_realtime := false
            print_timestamps := false
            translate := false
            single_segment := false
            no_timestamps := true
            language := "en"
            n_threads := 4 }) :=
  ⟨by decide,
    c5_fixed_policy_engine_call (constEngine twoSegs) 7 [] "en" (by decide)⟩

/-- C6: `whisperFree` on the zero handle performs no event at all (in
particular it never invokes `whisper_free`), while on a nonzero handle it
invokes `whisper_free` exactly once for that call. -/
theorem c6_free_zero_noop_nonzero_once (h : Int) (hh : h ≠ 0) :
    whisperFree 0 = []
    ∧ whisperFree h = [Event.engineFree h] := by
  refine ⟨rfl, ?_⟩
  simp [whisperFree, hh]

/-- Witness for C6 at handle 3. -/
theorem c6_free_zero_noop_nonzero_once_witness :
    (3 : Int) ≠ 0
    ∧ (whisperFree 0 = [] ∧ whisperFree 3 = [Event.engineFree 3]) :=
  ⟨by decide, c6_free_zero_noop_nonzero_once 3 (by decide)⟩

/-- C7: on every exit path of a nonzero-handle `whisperTranscribe` call
(engine failure and success alike), both acquired borrows — the sample
buffer and the language characters — are acquired once and released exactly
once before control returns (the trace is complete at return time). -/
theorem c7_borrows_released_all_paths (e : Engine) (h : Int) (s : List F32)
    (l : String) (hh : h ≠ 0) :
    (whisperTranscribe e h s l).trace.countP Event.isGetFloatArray = 1
    ∧ (whisperTranscribe e h s l).trace.countP Event.isReleaseFloatArray = 1
    ∧ (whisperTranscribe e h s l).trace.countP Event.isGetStringChars = 1
    ∧ (whisperTranscribe e h s l).trace.countP Event.isReleaseStringChars
        = 1 := by
  by_cases hf : (e.full h (bridgeParams e l) s).status = 0
  · rw [whisperTranscribe_ok e h s l hh hf]
    refine ⟨?_, ?_, ?_, ?_⟩ <;>
      simp [borrowTrace, Event.isGetFloatArray, Event.isReleaseFloatArray,
        Event.isGetStringChars, Event.isReleaseStringChars,
        List.countP_append, List.countP_map, Function.comp]
  · rw [whisperTranscribe_fail e h s l hh hf]
    refine ⟨?_, ?_, ?_, ?_⟩ <;>
      simp [borrowTrace, Event.isGetFloatArray, Event.isReleaseFloatArray,
        Event.isGetStringChars, Event.isReleaseStringChars,
        List.countP_append]

/-- Witness for C7 on both exit paths: success (handle 7) and engine
failure (handle 5). -/
theorem c7_borrows_released_all_paths_witness :
    (7 : Int) ≠ 0
    ∧ ((whisperTranscribe (constEngine twoSegs) 7 [] "en").trace.countP
          Event.isGetFloatArray = 1
      ∧ (whisperTranscribe (constEngine twoSegs) 7 [] "en").trace.countP
          Event.isReleaseFloatArray = 1
      ∧ (whisperTranscribe (constEngine twoSegs) 7 [] "en").trace.countP
          Event.isGetStringChars = 1
      ∧ (whisperTranscribe (constEngine twoSegs) 7 [] "en").trace.countP
          Event.isReleaseStringChars = 1) :=
  ⟨by decide,
    c7_borrows_released_all_paths (constEngine twoSegs) 7 [] "en"
      (by decide)⟩

/-- C8: determinism of the bridge.  The engine entry points are modelled as
deterministic functions (the spec's stated assumption, which greedy decoding
provides), so two `whisperTranscribe` calls with identical handle, samples
and language against engines exhibiting identical default-parameter and
inference behavior — in particular the same engine with an unmodified
context — return identical transcripts: the bridge adds no nondeterminism
of its own. -/
theorem c8_transcribe_deterministic (e1 e2 : Engine) (h : Int)
    (s : List F32) (l : String)
    (hdp : e1.full_default_params = e2.full_default_params)
    (hfull : e1.full = e2.full) :
    (whisperTranscribe e1 h s l).result
      = (whisperTranscribe e2 h s l).result := by
  unfold whisperTranscribe borrowTrace bridgeParams
  rw [hdp, hfull]

/-- Witness for C8: the same concrete engine on both sides. -/
theorem c8_transcribe_deterministic_witness :
    (constEngine twoSegs).full_default_params
        = (constEngine twoSegs).full_default_params
    ∧ (constEngine twoSegs).full = (constEngine twoSegs).full
    ∧ (whisperTranscribe (constEngine twoSegs) 7 [] "en").result
        = (whisperTranscribe (constEngine twoSegs) 7 [] "en").result :=
  ⟨rfl, rfl,
    c8_transcribe_deterministic (constEngine twoSegs) (constEngine twoSegs)
      7 [] "en" rfl rfl⟩

/-- C9 (implicit): when the engine run succeeds but reports zero segments,
`whisperTranscribe` returns the empty string; and the empty transcript is
indeed produced on all three paths — success with no output, engine
failure, and the zero handle — so it does not distinguish among them at the
public interface. -/
theorem c9_empty_transcript_conflates_paths (e : Engine) (h : Int)
    (s : List F32) (l : String) (hh : h ≠ 0)
    (hok : (e.full h (bridgeParams e l) s).status = 0)
    (hz : (e.full h (bridgeParams e l) s).n_segments = 0) :
    (whisperTranscribe e h s l).result = ""
    ∧ (whisperTranscribe (constEngine emptyRun) 5 [] "en").result = ""
    ∧ (whisperTranscribe (constEngine failedRun) 5 [] "en").result = ""
    ∧ (whisperTranscribe (constEngine emptyRun) 0 [] "en").result = "" := by
  refine ⟨?_, by decide, by decide, by decide⟩
  rw [whisperTranscribe_ok e h s l hh hok, hz]
  rfl

/-- Witness for C9 at a concrete engine succeeding with zero segments. -/
theorem c9_empty_transcript_conflates_paths_witness :
    (5 : Int) ≠ 0
    ∧ ((constEngine emptyRun).full 5
        (bridgeParams (constEngine emptyRun) "en") []).status = 0
    ∧ ((constEngine emptyRun).full 5
        (bridgeParams (constEngine emptyRun) "en") []).n_segments = 0
    ∧ ((whisperTranscribe (constEngine emptyRun) 5 [] "en").result = ""
      ∧ (whisperTranscribe (constEngine emptyRun) 5 [] "en").result = ""
      ∧ (whisperTranscribe (constEngine failedRun) 5 [] "en").result = ""
      ∧ (whisperTranscribe (constEngine emptyRun) 0 [] "en").result = "") :=
  ⟨by decide, by decide, by decide,
    c9_empty_transcript_conflates_paths (constEngine emptyRun) 5 [] "en"
      (by decide) (by decide) (by decide)⟩

/-- C10 (implicit frame property): `whisperTranscribe` leaves the caller's
inputs unchanged on every path — the sample array contents after the mode-0
copy-back release, and the language string, are identical to what the
caller passed in. -/
theorem c10_inputs_unchanged (e : Engine) (h : Int) (s : List F32)
    (l : String) :
    (whisperTranscribe e h s l).samples_after = s
    ∧ (whisperTranscribe e h s l).language_after = l := by
  by_cases hz : h = 0
  · subst hz
    rw [whisperTranscribe_zero]
    exact ⟨rfl, rfl⟩
  · by_cases hf : (e.full h (bridgeParams e l) s).status = 0
    · rw [whisperTranscribe_ok e h s l hz hf]
      exact ⟨rfl, rfl⟩
    · rw [whisperTranscribe_fail e h s l hz hf]
      exact ⟨rfl, rfl⟩

end WhisperJNI
